import Mathlib

set_option maxHeartbeats 1000000

/-
Verification development for the tfsnippet repository excerpt.

The central subject is the `FlowDistribution` construct: a base probability
distribution transformed by an invertible, density-tracking change-of-variables
map (a flow).  The class itself is not part of the excerpted sources; only its
unit tests (src/tests/distributions/test_flow.py) are.  The definitions below
therefore model the missing class from the natural-language specification,
with the unit tests of the repository pinning down the observable behaviour
wherever the specification text is ambiguous.  Tensors are modelled as a
static shape together with a flat list of integer entries (the operations the
claims involve are addition, negation and summation only); the collaborating
Distribution and Flow objects are modelled by their specified contracts.

The convolutional residual-block builders
(src/tfsnippet/examples/nn/convolutional.py) and the univariate distribution
wrappers (src/tfsnippet/distributions/univariate.py) are embedded from the
sources directly, the former as symbolic computation-graph expressions.
-/

namespace TFSnippet

/-- Element types of tensors, with the floating-point predicate used by the
construction-time validation of `FlowDistribution`. -/
inductive DType where
  | float32 : DType
  | float64 : DType
  | int32 : DType
deriving DecidableEq, Repr

/-- Whether a dtype is a floating-point type. -/
def DType.isFloating : DType → Bool
  | .float32 => true
  | .float64 => true
  | .int32 => false

/-- A tensor: a static shape together with its entries flattened in
row-major order.  A well-formed tensor has `data.length = shape.prod`. -/
structure Tensor where
  shape : List Nat
  data : List ℤ
deriving DecidableEq, Repr

/-- Sum consecutive blocks of size `b` of a flat list (the data part of
summing a tensor over its trailing dimensions). -/
def chunkSum (b : Nat) (l : List ℤ) : List ℤ :=
  (List.range (l.length / b)).map (fun i => ((l.drop (i * b)).take b).sum)

/-- A shape with its trailing `k` dimensions removed. -/
def dropTrailing (shape : List Nat) (k : Nat) : List Nat :=
  shape.take (shape.length - k)

/-- The number of elements of the trailing `k` dimensions of a shape. -/
def trailingProd (shape : List Nat) (k : Nat) : Nat :=
  ((shape.drop (shape.length - k)).prod)

/-- Embedding of summing a tensor over its trailing `g` dimensions
(the reduce-sum used for `group_ndims` grouping). -/
def reduceSumTrailing (g : Nat) (t : Tensor) : Tensor :=
  ⟨dropTrailing t.shape g, chunkSum (trailingProd t.shape g) t.data⟩

/-- Elementwise addition of two tensors of identical static shape; `none`
models the shape mismatch error raised by the tensor framework. -/
def addSameShape (a b : Tensor) : Option Tensor :=
  if a.shape = b.shape then
    some ⟨a.shape, List.zipWith (fun u v => u + v) a.data b.data⟩
  else
    none

/-- Elementwise negation of a tensor. -/
def negTensor (t : Tensor) : Tensor :=
  ⟨t.shape, t.data.map (fun q => -q)⟩

/-- Modelled from the spec: the external `Distribution` collaborator contract
(section 3 of the spec).  `log_prob0` is the log-density with
`group_ndims = 0`, already reduced over the trailing `value_ndims` event
dimensions of the distribution itself. -/
structure Distribution where
  dtype : DType
  is_continuous : Bool
  is_reparameterized : Bool
  value_ndims : Nat
  log_prob0 : Tensor → Tensor

/-- Modelled from the spec: `Distribution.log_prob(value, group_ndims)` is the
density of `value`, summed over the trailing `group_ndims` dimensions beyond
the trailing `value_ndims` event dimensions of the distribution itself. -/
def Distribution.log_prob (d : Distribution) (value : Tensor) (group_ndims : Nat) : Tensor :=
  reduceSumTrailing group_ndims (d.log_prob0 value)

/-- Modelled from the spec: the external `Flow` collaborator contract
(section 3 of the spec): an invertible transform with pre- and post-transform
event ranks and a log-determinant correction in each direction. -/
structure Flow where
  x_value_ndims : Nat
  y_value_ndims : Nat
  transform : Tensor → Tensor × Tensor
  inverse_transform : Tensor → Tensor × Tensor

/-- The `flow` argument of the `FlowDistribution` constructor: either an
object satisfying the `Flow` contract, or any other object (the duck-typed
source accepts arbitrary arguments and must reject non-flows). -/
inductive FlowArg where
  | isFlow : Flow → FlowArg
  | notFlow : FlowArg

/-- Errors raised by the modelled subsystem, keeping the Python exception
class distinctions of the source (TypeError / ValueError / RuntimeError). -/
inductive FDError where
  | typeError : String → FDError
  | valueError : String → FDError
  | runtimeError : String → FDError
deriving DecidableEq, Repr

/-- Message of the constructor TypeError for a non-flow argument, from the
pattern asserted in src/tests/distributions/test_flow.py. -/
def msgNotFlow : String := "`flow` is not an instance of `BaseFlow`"

/-- Message of the constructor ValueError for a non-continuous base
distribution, from src/tests/distributions/test_flow.py. -/
def msgNotContinuous : String :=
  "distribution cannot be transformed by a flow, because it is not continuous"

/-- Message of the constructor ValueError for a non-float base distribution,
from src/tests/distributions/test_flow.py. -/
def msgNotFloat : String :=
  "distribution cannot be transformed by a flow, because its data type is not float"

/-- Message of the constructor ValueError for the event-rank mismatch, from
src/tests/distributions/test_flow.py. -/
def msgRankMismatch : String :=
  "distribution cannot be transformed by flow, because distribution.value_ndims is larger than flow.x_value_ndims"

/-- Message of the RuntimeError raised by `sample(compute_density=False)`,
from src/tests/distributions/test_flow.py. -/
def msgComputeProb : String :=
  "`FlowDistribution` requires `compute_prob` not to be False"

/-- Message of the shape mismatch error propagated from the tensor framework
when the log-density and log-determinant shapes disagree. -/
def msgShapeMismatch : String :=
  "shape mismatch between log-density and log-determinant"

/-- Modelled from the spec: the `FlowDistribution` core entity, a composition
of exactly one base distribution and one flow (the class itself is absent
from the excerpted sources). -/
structure FlowDistribution where
  distribution : Distribution
  flow : Flow

/-- Modelled from the spec: the `FlowDistribution(distribution, flow)`
constructor with its four construction-time invariants, checked in the order
of the source tests: flow contract (TypeError), continuity, float dtype and
event-rank compatibility (ValueError). -/
def FlowDistribution.make (d : Distribution) (fa : FlowArg) :
    Except FDError FlowDistribution :=
  match fa with
  | .notFlow => .error (.typeError msgNotFlow)
  | .isFlow f =>
    if d.is_continuous = false then
      .error (.valueError msgNotContinuous)
    else if d.dtype.isFloating = false then
      .error (.valueError msgNotFloat)
    else if f.x_value_ndims < d.value_ndims then
      .error (.valueError msgRankMismatch)
    else
      .ok ⟨d, f⟩

/-- Modelled from the spec: `value_ndims` is derived from the flow, as
`flow.y_value_ndims`, not from the base distribution. -/
def FlowDistribution.value_ndims (fd : FlowDistribution) : Nat :=
  fd.flow.y_value_ndims

/-- Modelled from the spec: the dtype of the transformed distribution equals
the dtype of the base distribution. -/
def FlowDistribution.dtype (fd : FlowDistribution) : DType :=
  fd.distribution.dtype

/-- Modelled from the spec: a flow-transformed distribution is always
continuous (enforced at construction). -/
def FlowDistribution.is_continuous (_fd : FlowDistribution) : Bool :=
  true

/-- Modelled from the spec: `is_reparameterized` is derived from the base
distribution. -/
def FlowDistribution.is_reparameterized (fd : FlowDistribution) : Bool :=
  fd.distribution.is_reparameterized

/-- Modelled from the spec: the difference `flow.x_value_ndims -
distribution.value_ndims` of invariant 4, the number of trailing dimensions
the flow consumes beyond the event dimensions of the base distribution.  The
base log-density is reduced over these dimensions so that its shape agrees
with the shape of the log-determinant; this is pinned by
src/tests/distributions/test_flow.py (the value_ndims = 1 cases of
test_sample_value_and_group_ndims and test_log_prob_value_and_group_ndims). -/
def FlowDistribution.ndims_diff (fd : FlowDistribution) : Nat :=
  fd.flow.x_value_ndims - fd.distribution.value_ndims

/-- Modelled from the spec: `FlowDistribution.log_prob(y, group_ndims)` runs
the inverse transform, evaluates the base density at the recovered value, adds
the log-determinant of the inverse transform, and reduce-sums over the
trailing `group_ndims` dimensions.  Per the note on `ndims_diff`, the base
density is reduced over the `ndims_diff` trailing dimensions, as pinned by
the unit tests of the repository. -/
def FlowDistribution.log_prob (fd : FlowDistribution) (y : Tensor) (group_ndims : Nat) :
    Option Tensor :=
  (addSameShape
      (fd.distribution.log_prob (fd.flow.inverse_transform y).1 fd.ndims_diff)
      (fd.flow.inverse_transform y).2).map
    (reduceSumTrailing group_ndims)

/-- A sample drawn from the base distribution, handed to the sampling path of
`FlowDistribution`.  `dependsOnBaseParams` models computation-graph
connectivity to the parameters of the base distribution: a reparameterized
draw is a differentiable function of the parameters (gradient non-null), a
non-reparameterized draw is not. -/
structure BaseSample where
  tensor : Tensor
  is_reparameterized : Bool
  dependsOnBaseParams : Bool
deriving DecidableEq, Repr

/-- Modelled from the spec: the stop-gradient primitive, which keeps the
value of a sample but severs its computation-graph connection to the
parameters that generated it. -/
def stopGradient (x : BaseSample) : BaseSample :=
  ⟨x.tensor, x.is_reparameterized, false⟩

/-- The sample object returned by `FlowDistribution.sample`: the transformed
tensor, the effective reparameterization flag, graph connectivity to the base
parameters, and the log-density cached at sampling time. -/
structure StochasticTensor where
  tensor : Tensor
  is_reparameterized : Bool
  dependsOnBaseParams : Bool
  log_prob_cached : Option Tensor
deriving DecidableEq, Repr

/-- Modelled from the spec: the sampling path of `FlowDistribution`.  The
base draw `x` is supplied as an oracle argument (randomness is external to
the model).  `compute_density = False` is rejected with a RuntimeError; the
effective reparameterization flag falls back to the flag of the base draw;
when it is false the draw is detached by stop-gradient before entering the
flow.  The cached log-density is the base log-density (reduced over
`ndims_diff` trailing dimensions) minus the forward log-determinant,
reduce-summed over the trailing `group_ndims` dimensions of the caller; the
sign is fixed by the density-consistency property asserted by
src/tests/distributions/test_flow.py (test_sample) together with the flow
contract of section 3 of the spec, under which the log-determinant of the
inverse transform is the negative of the forward one.  The transform of the
flow preserves graph connectivity, so the returned sample depends on the base
parameters exactly when the (possibly detached) input does. -/
def FlowDistribution.sample (fd : FlowDistribution) (x : BaseSample)
    (is_reparameterized compute_density : Option Bool) (group_ndims : Nat) :
    Except FDError StochasticTensor :=
  if compute_density = some false then
    .error (.runtimeError msgComputeProb)
  else
    let eff := is_reparameterized.getD x.is_reparameterized
    let x1 := cond eff x (stopGradient x)
    let p := fd.flow.transform x1.tensor
    match addSameShape (fd.distribution.log_prob x1.tensor fd.ndims_diff)
        (negTensor p.2) with
    | none => .error (.valueError msgShapeMismatch)
    | some s =>
      .ok ⟨p.1, eff, x1.dependsOnBaseParams, some (reduceSumTrailing group_ndims s)⟩

/-! Section: Basic lemmas about the tensor operations -/

theorem take_one_drop_sum (l : List ℤ) (i : Nat) (h : i < l.length) :
    ((l.drop i).take 1).sum = l[i] := by
  induction l generalizing i with
  | nil => simp at h
  | cons a t ih =>
    cases i with
    | zero => simp
    | succ j =>
      simp only [List.drop_succ_cons, List.getElem_cons_succ]
      exact ih j (by simpa using h)

theorem chunkSum_one (l : List ℤ) : chunkSum 1 l = l := by
  unfold chunkSum
  apply List.ext_getElem
  · simp
  · intro i h1 h2
    simp only [List.getElem_map, List.getElem_range, Nat.mul_one]
    exact take_one_drop_sum l i h2

theorem dropTrailing_zero (s : List Nat) : dropTrailing s 0 = s := by
  simp [dropTrailing]

theorem trailingProd_zero (s : List Nat) : trailingProd s 0 = 1 := by
  simp [trailingProd]

theorem reduceSumTrailing_zero (t : Tensor) : reduceSumTrailing 0 t = t := by
  cases t with
  | mk s d =>
    simp [reduceSumTrailing, dropTrailing_zero, trailingProd_zero, chunkSum_one]

theorem reduceSumTrailing_shape (g : Nat) (t : Tensor) :
    (reduceSumTrailing g t).shape = dropTrailing t.shape g := rfl

theorem negTensor_shape (t : Tensor) : (negTensor t).shape = t.shape := rfl

theorem addSameShape_eq_some (a b s : Tensor) (h : addSameShape a b = some s) :
    a.shape = b.shape ∧ s.shape = a.shape := by
  unfold addSameShape at h
  split at h
  · rename_i hs
    cases h
    exact ⟨hs, rfl⟩
  · cases h

theorem cond_stopGradient_tensor (b : Bool) (x : BaseSample) :
    (cond b x (stopGradient x)).tensor = x.tensor := by
  cases b <;> rfl

theorem cond_stopGradient_depends (b : Bool) (x : BaseSample) :
    (cond b x (stopGradient x)).dependsOnBaseParams = (b && x.dependsOnBaseParams) := by
  cases b <;> simp [stopGradient]

/-- Inversion of a successful sampling call: the components of the returned
stochastic tensor in terms of the base draw, the flow and the caller flags. -/
theorem sample_ok_elim (fd : FlowDistribution) (x : BaseSample)
    (ir cd : Option Bool) (g : Nat) (st : StochasticTensor)
    (h : fd.sample x ir cd g = Except.ok st) :
    st.tensor = (fd.flow.transform x.tensor).1 ∧
    st.is_reparameterized = ir.getD x.is_reparameterized ∧
    st.dependsOnBaseParams = (ir.getD x.is_reparameterized && x.dependsOnBaseParams) ∧
    st.log_prob_cached =
      (addSameShape (fd.distribution.log_prob x.tensor fd.ndims_diff)
        (negTensor (fd.flow.transform x.tensor).2)).map (reduceSumTrailing g) ∧
    st.log_prob_cached.isSome = true := by
  unfold FlowDistribution.sample at h
  split at h
  · cases h
  · rename_i hcd
    simp only [cond_stopGradient_tensor] at h
    split at h
    · cases h
    · rename_i s hadd
      cases h
      refine ⟨rfl, rfl, cond_stopGradient_depends _ x, ?_, rfl⟩
      simp [hadd]

/-! Section: Concrete example objects used by witnesses and counterexamples -/

/-- A small concrete tensor of shape (2,). -/
def exTensor : Tensor := ⟨[2], [0, 0]⟩

/-- A concrete continuous float distribution with scalar events, whose
log-density is the identity on tensors (an explicit elementwise density). -/
def exD0 : Distribution := ⟨DType.float32, true, true, 0, fun t => t⟩

/-- A concrete flow with scalar pre-transform events whose transform is the
identity with the tensor itself as forward log-determinant; its inverse
returns the negated log-determinant, satisfying the flow contract. -/
def exFlowId : Flow := ⟨0, 1, fun t => (t, t), fun t => (t, negTensor t)⟩

/-- A concrete flow-transformed distribution over `exD0` and `exFlowId`. -/
def exFD1 : FlowDistribution := ⟨exD0, exFlowId⟩

/-- A concrete reparameterized base draw of shape (2,). -/
def exX1 : BaseSample := ⟨exTensor, true, true⟩

/-- The stochastic tensor produced by `exFD1.sample exX1 none none 1`. -/
def exSt1 : StochasticTensor := ⟨exTensor, true, true, some ⟨[], [0]⟩⟩

/-- A concrete flow consuming one trailing event dimension in each direction,
with a contract-shaped log-determinant (input shape minus the trailing
dimension). -/
def exFlowV1 : Flow :=
  ⟨1, 1, fun t => (t, reduceSumTrailing 1 t), fun t => (t, reduceSumTrailing 1 t)⟩

/-- A flow-transformed distribution whose base has fewer event dimensions
than the flow consumes (`value_ndims = 0 < 1 = x_value_ndims`), the
configuration exercised by the repository tests. -/
def exFD2 : FlowDistribution := ⟨exD0, exFlowV1⟩

/-- A concrete input tensor of shape (2, 3). -/
def exY2 : Tensor := ⟨[2, 3], [0, 0, 0, 0, 0, 0]⟩

/-- A concrete continuous float distribution with one event dimension, whose
log-density sums the trailing event dimension. -/
def exD1 : Distribution := ⟨DType.float64, true, true, 1, fun t => reduceSumTrailing 1 t⟩

/-- A flow-transformed distribution whose base event rank equals the flow
pre-transform event rank. -/
def exFD3 : FlowDistribution := ⟨exD1, exFlowV1⟩

/-! Section: Claim C1 -/

/-- Claim C1: for every sample `y` drawn by `FlowDistribution.sample`, the
log-density cached on `y` (the O(1) value returned by a later `y.log_prob()`)
equals the density computed through the inverse path: the base log-density at
`x = flow.inverse_transform(y)` plus the inverse log-determinant, reduce-summed
over the trailing `group_ndims` dimensions of the caller — here proved as an
exact equality of rationals, which subsumes the rtol=1e-5 tolerance.  The
hypothesis is the flow contract of section 3 of the spec at the drawn point:
the inverse transform recovers the base draw and negates the forward
log-determinant. -/
theorem C1_sample_density_consistency (fd : FlowDistribution) (x : BaseSample)
    (ir cd : Option Bool) (g : Nat) (st : StochasticTensor)
    (hs : fd.sample x ir cd g = Except.ok st)
    (hinv : fd.flow.inverse_transform (fd.flow.transform x.tensor).1 =
      (x.tensor, negTensor (fd.flow.transform x.tensor).2)) :
    st.log_prob_cached = fd.log_prob st.tensor g := by
  obtain ⟨ht, _, _, hc, _⟩ := sample_ok_elim fd x ir cd g st hs
  rw [hc, ht, FlowDistribution.log_prob, hinv]

/-- Witness for C1 at a concrete flow distribution, base draw and
`group_ndims = 1`. -/
theorem C1_sample_density_consistency_witness :
    exFD1.sample exX1 none none 1 = Except.ok exSt1 ∧
    exFD1.flow.inverse_transform ((exFD1.flow.transform exX1.tensor).1) =
      (exX1.tensor, negTensor (exFD1.flow.transform exX1.tensor).2) ∧
    exSt1.log_prob_cached = exFD1.log_prob exSt1.tensor 1 := by
  refine ⟨rfl, rfl, ?_⟩
  exact C1_sample_density_consistency exFD1 exX1 none none 1 exSt1 rfl rfl

/-! Section: Claim C2 -/

/-- The density formula of claim C2 read literally: the base log-density is
taken with `group_ndims = 0`, added to the inverse log-determinant and
reduce-summed over the trailing `group_ndims` dimensions. -/
def log_prob_claim_formula (fd : FlowDistribution) (y : Tensor) (g : Nat) :
    Option Tensor :=
  (addSameShape
      (fd.distribution.log_prob (fd.flow.inverse_transform y).1 0)
      (fd.flow.inverse_transform y).2).map
    (reduceSumTrailing g)

/-- The amended density formula of claim C2: the base log-density is reduced
over the trailing `flow.x_value_ndims - distribution.value_ndims` dimensions,
so that its shape matches the log-determinant shape, as the repository tests
require. -/
def log_prob_amended_formula (fd : FlowDistribution) (y : Tensor) (g : Nat) :
    Option Tensor :=
  (addSameShape
      (fd.distribution.log_prob (fd.flow.inverse_transform y).1
        (fd.flow.x_value_ndims - fd.distribution.value_ndims))
      (fd.flow.inverse_transform y).2).map
    (reduceSumTrailing g)

/-- Counterexample to claim C2 as stated: at a base distribution with
`value_ndims = 0` under a flow with `x_value_ndims = 1` (the configuration of
the repository tests) and an input of shape (2, 3), the literal formula adds a
log-density of shape (2, 3) to a log-determinant of shape (2,), a shape
mismatch, while `FlowDistribution.log_prob` produces a value. -/
theorem C2_log_prob_group_zero_counterexample :
    log_prob_claim_formula exFD2 exY2 0 ≠ FlowDistribution.log_prob exFD2 exY2 0 := by
  decide

/-- Claim C2 (amended): `FlowDistribution.log_prob(y, g)` equals the
reduce-sum over the trailing `g` dimensions of the base log-density at
`x = flow.inverse_transform(y)` taken with `group_ndims = flow.x_value_ndims -
distribution.value_ndims`, plus the inverse-transform log-determinant; when
the base event rank equals the flow pre-transform event rank this coincides
with the original `group_ndims = 0` formula of the claim. -/
theorem C2_log_prob_formula (fd : FlowDistribution) (y : Tensor) (g : Nat) :
    fd.log_prob y g = log_prob_amended_formula fd y g ∧
    (fd.distribution.value_ndims = fd.flow.x_value_ndims →
      fd.log_prob y g = log_prob_claim_formula fd y g) := by
  constructor
  · rfl
  · intro h
    unfold FlowDistribution.log_prob log_prob_claim_formula FlowDistribution.ndims_diff
    rw [h, Nat.sub_self]

/-- Witness for C2 at a concrete flow distribution whose base event rank
matches the flow pre-transform event rank. -/
theorem C2_log_prob_formula_witness :
    FlowDistribution.log_prob exFD3 exY2 1 = log_prob_amended_formula exFD3 exY2 1 ∧
    exFD3.distribution.value_ndims = exFD3.flow.x_value_ndims ∧
    FlowDistribution.log_prob exFD3 exY2 1 = log_prob_claim_formula exFD3 exY2 1 :=
  ⟨(C2_log_prob_formula exFD3 exY2 1).1, rfl, (C2_log_prob_formula exFD3 exY2 1).2 rfl⟩

/-! Section: Claim C3 -/

/-- Claim C3: grouping commutes with the ungrouped density — for every input
`y` and every `g` (in particular `g` in 0, 1, 2), `log_prob(y, g)` equals
summing `log_prob(y, 0)` over the trailing `g` dimensions. -/
theorem C3_grouping_commutativity (fd : FlowDistribution) (y : Tensor) (g : Nat) :
    fd.log_prob y g = (fd.log_prob y 0).map (reduceSumTrailing g) := by
  unfold FlowDistribution.log_prob
  cases hadd : addSameShape
      (fd.distribution.log_prob (fd.flow.inverse_transform y).1 fd.ndims_diff)
      (fd.flow.inverse_transform y).2 with
  | none => simp
  | some s => simp [reduceSumTrailing_zero]

/-! Section: Claim C4 -/

/-- A discrete integer-typed base distribution (after the `Categorical`
wrapper of the repository). -/
def exDCat : Distribution := ⟨DType.int32, false, false, 0, fun t => t⟩

/-- A continuous base distribution of integer dtype (after the
`Mock(normal, dtype=tf.int32)` of the repository tests). -/
def exDIntCont : Distribution := ⟨DType.int32, true, true, 0, fun t => t⟩

/-- A continuous float base distribution with `value_ndims = 2` (after the
`Mock(normal, value_ndims=2)` of the repository tests). -/
def exDRank2 : Distribution := ⟨DType.float32, true, true, 2, fun t => t⟩

/-- Claim C4: the `FlowDistribution` constructor fails with a TypeError when
the flow argument does not satisfy the Flow contract, and with a ValueError
when the base distribution is not continuous, when its dtype is not
floating-point, or when `distribution.value_ndims > flow.x_value_ndims`; the
error messages of the three ValueError cases and the TypeError case are
pairwise distinct, each identifying the violated contract, and in every case
the result is an error, so no `FlowDistribution` is produced. -/
theorem C4_construction_errors (d : Distribution) (f : Flow) :
    FlowDistribution.make d FlowArg.notFlow = .error (.typeError msgNotFlow) ∧
    (d.is_continuous = false →
      FlowDistribution.make d (.isFlow f) = .error (.valueError msgNotContinuous)) ∧
    (d.is_continuous = true → d.dtype.isFloating = false →
      FlowDistribution.make d (.isFlow f) = .error (.valueError msgNotFloat)) ∧
    (d.is_continuous = true → d.dtype.isFloating = true →
      f.x_value_ndims < d.value_ndims →
      FlowDistribution.make d (.isFlow f) = .error (.valueError msgRankMismatch)) ∧
    (msgNotContinuous ≠ msgNotFloat ∧ msgNotContinuous ≠ msgRankMismatch ∧
      msgNotFloat ≠ msgRankMismatch) := by
  refine ⟨rfl, ?_, ?_, ?_, by decide, by decide, by decide⟩
  · intro h1
    simp [FlowDistribution.make, h1]
  · intro h1 h2
    simp [FlowDistribution.make, h1, h2]
  · intro h1 h2 h3
    simp [FlowDistribution.make, h1, h2, h3, Nat.not_lt.mpr (Nat.le_of_lt h3)]

/-- Witness for C4: the three rejected constructions of the repository tests
(a non-flow argument, a categorical base, an integer-typed continuous base, a
rank-2 base against a flow of `x_value_ndims = 1`). -/
theorem C4_construction_errors_witness :
    FlowDistribution.make exDCat FlowArg.notFlow = .error (.typeError msgNotFlow) ∧
    FlowDistribution.make exDCat (.isFlow exFlowV1) =
      .error (.valueError msgNotContinuous) ∧
    FlowDistribution.make exDIntCont (.isFlow exFlowV1) =
      .error (.valueError msgNotFloat) ∧
    FlowDistribution.make exDRank2 (.isFlow exFlowV1) =
      .error (.valueError msgRankMismatch) :=
  ⟨(C4_construction_errors exDCat exFlowV1).1,
   (C4_construction_errors exDCat exFlowV1).2.1 rfl,
   (C4_construction_errors exDIntCont exFlowV1).2.2.1 rfl rfl,
   (C4_construction_errors exDRank2 exFlowV1).2.2.2.1 rfl rfl (by decide)⟩

/-! Section: Claim C5 -/

/-- Claim C5: `sample(compute_density=False)` fails with a RuntimeError
regardless of the other arguments, and every successful sampling call attaches
a computed log-density to the returned sample. -/
theorem C5_sample_always_computes_density (fd : FlowDistribution) (x : BaseSample)
    (ir : Option Bool) (g : Nat) :
    fd.sample x ir (some false) g = .error (.runtimeError msgComputeProb) ∧
    (∀ cd : Option Bool, ∀ st : StochasticTensor,
      fd.sample x ir cd g = Except.ok st → st.log_prob_cached.isSome = true) := by
  constructor
  · rfl
  · intro cd st hok
    exact (sample_ok_elim fd x ir cd g st hok).2.2.2.2

/-- Witness for C5 at a concrete flow distribution and base draw. -/
theorem C5_sample_always_computes_density_witness :
    exFD1.sample exX1 none (some false) 1 = .error (.runtimeError msgComputeProb) ∧
    exFD1.sample exX1 none (some true) 1 = Except.ok exSt1 ∧
    exSt1.log_prob_cached.isSome = true :=
  ⟨(C5_sample_always_computes_density exFD1 exX1 none 1).1, rfl,
   (C5_sample_always_computes_density exFD1 exX1 none 1).2 (some true) exSt1 rfl⟩

/-! Section: Claim C6 -/

/-- A reshape-style flow mapping one pre-transform event dimension to two
post-transform event dimensions, after the `ReshapeFlow(1, [-1, 1])` of the
repository tests. -/
def exFlowReshape : Flow :=
  ⟨1, 2, fun t => (t, reduceSumTrailing 1 t), fun t => (t, reduceSumTrailing 1 t)⟩

/-- The flow distribution produced by wrapping `exD0` with `exFlowReshape`. -/
def exFDR : FlowDistribution := ⟨exD0, exFlowReshape⟩

/-- Claim C6: for every successfully constructed `FlowDistribution`, the
`value_ndims` property equals `flow.y_value_ndims` (not the value_ndims of
the base distribution), the dtype equals the dtype of the base distribution,
`is_continuous` is true, and the wrapped objects are stored by reference. -/
theorem C6_derived_properties (d : Distribution) (f : Flow) (fd : FlowDistribution)
    (h : FlowDistribution.make d (.isFlow f) = Except.ok fd) :
    fd.value_ndims = f.y_value_ndims ∧ fd.dtype = d.dtype ∧
    fd.is_continuous = true ∧ fd.is_reparameterized = d.is_reparameterized ∧
    fd.distribution = d ∧ fd.flow = f := by
  cases hc : d.is_continuous with
  | false => simp [FlowDistribution.make, hc] at h
  | true =>
    cases hf : d.dtype.isFloating with
    | false => simp [FlowDistribution.make, hc, hf] at h
    | true =>
      by_cases hr : f.x_value_ndims < d.value_ndims
      · simp [FlowDistribution.make, hc, hf, hr] at h
      · simp [FlowDistribution.make, hc, hf, hr] at h
        subst h
        exact ⟨rfl, rfl, rfl, rfl, rfl, rfl⟩

/-- Witness for C6: wrapping a base distribution of `value_ndims = 0` with a
flow of `y_value_ndims = 2` yields `value_ndims = 2`, distinct from the base
value_ndims. -/
theorem C6_derived_properties_witness :
    FlowDistribution.make exD0 (.isFlow exFlowReshape) = Except.ok exFDR ∧
    exFDR.value_ndims = 2 ∧ exD0.value_ndims = 0 ∧
    exFDR.dtype = exD0.dtype ∧ exFDR.is_continuous = true := by
  have h := C6_derived_properties exD0 exFlowReshape exFDR rfl
  exact ⟨rfl, h.1, rfl, h.2.1, h.2.2.1⟩

/-! Section: Claim C7 -/

/-- The static shape of the tensor returned by a sampling call, when the call
succeeds. -/
def sampleShape (fd : FlowDistribution) (x : BaseSample)
    (ir cd : Option Bool) (g : Nat) : Option (List Nat) :=
  ((fd.sample x ir cd g).toOption).map (fun st => st.tensor.shape)

/-- The static shape of the log-density cached by a sampling call, when the
call succeeds. -/
def sampleDensityShape (fd : FlowDistribution) (x : BaseSample)
    (ir cd : Option Bool) (g : Nat) : Option (List Nat) :=
  (((fd.sample x ir cd g).toOption).bind
    (fun st => st.log_prob_cached)).map (fun t => t.shape)

/-- Elementwise addition of two tensors of equal shape succeeds, with the
shape preserved. -/
theorem addSameShape_of_eq (a b : Tensor) (h : a.shape = b.shape) :
    addSameShape a b =
      some ⟨a.shape, List.zipWith (fun u v => u + v) a.data b.data⟩ := by
  simp [addSameShape, h]

/-- Claim C7: for a base draw of static shape (5, 3) (a base distribution of
batch shape (3,) sampled with `n_samples = 5`) under a flow with
`x_value_ndims = 0` mapping to `y_value_ndims`, with an elementwise base
log-density, a shape-preserving transform and a log-determinant shaped as the
input with its trailing `x_value_ndims` dimensions removed (the Flow
contract), a sampling call succeeds, the returned tensor has static shape
(5, 3), and the cached log-density has the shape (5, 3) with its trailing
`group_ndims` dimensions removed — for `group_ndims = 1`, the per-sample
shape (5,). -/
theorem C7_shape_scenario (fd : FlowDistribution) (x : BaseSample) (g : Nat)
    (hdv : fd.distribution.value_ndims = 0)
    (hfx : fd.flow.x_value_ndims = 0)
    (hxs : x.tensor.shape = [5, 3])
    (hlp : ∀ t : Tensor, (fd.distribution.log_prob0 t).shape = t.shape)
    (hty : (fd.flow.transform x.tensor).1.shape = [5, 3])
    (hld : (fd.flow.transform x.tensor).2.shape =
      dropTrailing x.tensor.shape fd.flow.x_value_ndims) :
    sampleShape fd x none none g = some [5, 3] ∧
    sampleDensityShape fd x none none g = some (dropTrailing [5, 3] g) := by
  have hnd : fd.ndims_diff = 0 := by
    simp [FlowDistribution.ndims_diff, hfx, hdv]
  have ha : (fd.distribution.log_prob x.tensor fd.ndims_diff).shape = [5, 3] := by
    rw [Distribution.log_prob, hnd, reduceSumTrailing_shape, hlp, hxs,
      dropTrailing_zero]
  have hb : (negTensor (fd.flow.transform x.tensor).2).shape = [5, 3] := by
    rw [negTensor_shape, hld, hxs, hfx, dropTrailing_zero]
  have hadd := addSameShape_of_eq _ _ (ha.trans hb.symm)
  constructor
  · simp only [sampleShape, FlowDistribution.sample]
    rw [if_neg (by simp)]
    simp only [cond_stopGradient_tensor, hadd]
    simp [Except.toOption, hty]
  · simp only [sampleDensityShape, FlowDistribution.sample]
    rw [if_neg (by simp)]
    simp only [cond_stopGradient_tensor, hadd]
    simp [Except.toOption, reduceSumTrailing_shape, dropTrailing, ha]

/-- A base draw of static shape (5, 3), standing for five draws from a base
distribution of batch shape (3,). -/
def exX7 : BaseSample := ⟨⟨[5, 3], List.replicate 15 0⟩, true, true⟩

/-- Witness for C7 at a concrete flow distribution, a concrete (5, 3) base
draw and `group_ndims = 1`: the sample has static shape (5, 3) and the cached
per-sample log-density has static shape (5,). -/
theorem C7_shape_scenario_witness :
    exFD1.flow.x_value_ndims = 0 ∧ exFD1.flow.y_value_ndims = 1 ∧
    exX7.tensor.shape = [5, 3] ∧
    sampleShape exFD1 exX7 none none 1 = some [5, 3] ∧
    sampleDensityShape exFD1 exX7 none none 1 = some [5] := by
  have h := C7_shape_scenario exFD1 exX7 1 rfl rfl rfl (fun t => rfl) rfl rfl
  exact ⟨rfl, rfl, rfl, h.1, h.2⟩

/-! Section: Claim C8 -/

/-- Claim C8: `FlowDistribution.is_reparameterized` equals the
`is_reparameterized` of the base distribution; for a reparameterized,
parameter-connected base draw, sampling with the default flag returns a
reparameterized sample whose gradient path to the base parameters is
non-null, and sampling with `is_reparameterized = False` returns a
non-reparameterized sample whose gradient path to the base parameters is
null (graph connectivity models whether `tf.gradients` of the sample with
respect to the base parameters is non-None). -/
theorem C8_reparameterization_gradient_flow (fd : FlowDistribution)
    (x : BaseSample) (g : Nat) (st1 st2 : StochasticTensor)
    (hrep : x.is_reparameterized = true)
    (hdep : x.dependsOnBaseParams = true)
    (h1 : fd.sample x none none g = Except.ok st1)
    (h2 : fd.sample x (some false) none g = Except.ok st2) :
    fd.is_reparameterized = fd.distribution.is_reparameterized ∧
    st1.is_reparameterized = true ∧ st1.dependsOnBaseParams = true ∧
    st2.is_reparameterized = false ∧ st2.dependsOnBaseParams = false := by
  obtain ⟨_, hr1, hd1, _, _⟩ := sample_ok_elim fd x none none g st1 h1
  obtain ⟨_, hr2, hd2, _, _⟩ := sample_ok_elim fd x (some false) none g st2 h2
  refine ⟨rfl, ?_, ?_, ?_, ?_⟩
  · rw [hr1]; simp [hrep]
  · rw [hd1]; simp [hrep, hdep]
  · rw [hr2]; rfl
  · rw [hd2]; rfl

/-- The stochastic tensor produced by `exFD1.sample exX1 (some false) none 1`:
detached from the base parameters. -/
def exSt1f : StochasticTensor := ⟨exTensor, false, false, some ⟨[], [0]⟩⟩

/-- Witness for C8 at a concrete flow distribution and a concrete
reparameterized base draw. -/
theorem C8_reparameterization_gradient_flow_witness :
    exFD1.sample exX1 none none 1 = Except.ok exSt1 ∧
    exFD1.sample exX1 (some false) none 1 = Except.ok exSt1f ∧
    exFD1.is_reparameterized = exFD1.distribution.is_reparameterized ∧
    exSt1.is_reparameterized = true ∧ exSt1.dependsOnBaseParams = true ∧
    exSt1f.is_reparameterized = false ∧ exSt1f.dependsOnBaseParams = false := by
  have h := C8_reparameterization_gradient_flow exFD1 exX1 1 exSt1 exSt1f
    rfl rfl rfl rfl
  exact ⟨rfl, rfl, h.1, h.2.1, h.2.2.1, h.2.2.2.1, h.2.2.2.2⟩

/-! Section: Claim C9 — the univariate wrappers of
src/tfsnippet/distributions/univariate.py -/

/-- The `Bernoulli` wrapper of src/tfsnippet/distributions/univariate.py: it
forwards `logits` and `dtype` to the external library.  The `dtype` argument
is optional; `none` stands for an omitted argument, resolved by the
constructor default `dtype=tf.int32` of the source. -/
structure Bernoulli where
  logits : List ℤ
  dtype : DType

/-- The constructor of the `Bernoulli` wrapper, whose `dtype` argument
defaults to `tf.int32` (src/tfsnippet/distributions/univariate.py). -/
def Bernoulli.make (logits : List ℤ) (dtype : Option DType) : Bernoulli :=
  ⟨logits, dtype.getD DType.int32⟩

/-- The `Categorical` wrapper of src/tfsnippet/distributions/univariate.py:
its `dtype` argument defaults to `None` and is forwarded unresolved to the
external library. -/
structure Categorical where
  logits : List ℤ
  dtype : Option DType

/-- The constructor of the `Categorical` wrapper; `none` is both the omitted
argument and the `dtype=None` default of the source. -/
def Categorical.make (logits : List ℤ) (dtype : Option DType) : Categorical :=
  ⟨logits, dtype⟩

/-- Modelled from the spec: the wrappers merely forward to an external
distributions library, which resolves a `None` dtype of a categorical
distribution to its own default sample dtype `int32`. -/
def zdResolveDtype (dtype : Option DType) : DType :=
  dtype.getD DType.int32

/-- The effective sample dtype of a `Categorical` wrapper, after the external
library resolves its forwarded `dtype`. -/
def Categorical.sampleDtype (c : Categorical) : DType :=
  zdResolveDtype c.dtype

/-- `Discrete` is the very same class as `Categorical`
(src/tfsnippet/distributions/univariate.py, `Discrete = Categorical`). -/
def Discrete := Categorical

/-- Modelled from the spec: the external Bernoulli distribution is discrete
and not reparameterizable; the wrapper exposes it under the generic
Distribution contract with the dtype chosen at construction.  Its density
function is irrelevant to the construction-time checks settled here. -/
def Bernoulli.toDistribution (b : Bernoulli) : Distribution :=
  ⟨b.dtype, false, false, 0, fun t => t⟩

/-- Claim C9: the `Bernoulli` constructor defaults its sample dtype to
`tf.int32`, the `Categorical` wrapper defaults its forwarded dtype to `None`,
which the external library resolves to an integer type; `int32` is not a
floating-point type, and a base distribution of non-floating dtype can never
be wrapped by `FlowDistribution` (construction always fails); `Discrete` is
the same class as `Categorical`. -/
theorem C9_integer_dtype_defaults (l : List ℤ) (d : Distribution) (f : Flow) :
    (Bernoulli.make l none).dtype = DType.int32 ∧
    (Categorical.make l none).dtype = none ∧
    (Categorical.make l none).sampleDtype = DType.int32 ∧
    DType.isFloating DType.int32 = false ∧
    (d.dtype.isFloating = false →
      ∃ e : FDError, FlowDistribution.make d (.isFlow f) = .error e) ∧
    Discrete = Categorical := by
  refine ⟨rfl, rfl, rfl, rfl, ?_, rfl⟩
  intro hf
  cases hc : d.is_continuous with
  | false => exact ⟨.valueError msgNotContinuous, by simp [FlowDistribution.make, hc]⟩
  | true => exact ⟨.valueError msgNotFloat, by simp [FlowDistribution.make, hc, hf]⟩

/-- Witness for C9: a `Bernoulli` built with the default dtype cannot be
wrapped by `FlowDistribution`. -/
theorem C9_integer_dtype_defaults_witness :
    (Bernoulli.make [0] none).dtype = DType.int32 ∧
    ((Bernoulli.make [0] none).toDistribution).dtype.isFloating = false ∧
    (∃ e : FDError, FlowDistribution.make
      ((Bernoulli.make [0] none).toDistribution) (.isFlow exFlowV1) = .error e) := by
  refine ⟨(C9_integer_dtype_defaults [0] (Bernoulli.make [0] none).toDistribution
    exFlowV1).1, rfl, ?_⟩
  exact (C9_integer_dtype_defaults [0] (Bernoulli.make [0] none).toDistribution
    exFlowV1).2.2.2.2.1 rfl

/-! Section: Claim C10 — the residual-block builders of
src/tfsnippet/examples/nn/convolutional.py.  Graph construction is embedded
symbolically: building a block produces an expression tree recording every
convolution created (kind, output channels, kernel size, strides, bias flag
and scope name), every applied normalizer/activation/dropout, and additions.
An absent optional function is the identity and creates no node, exactly as
`activation_fn or (lambda x: x)` does in the source. -/

/-- A symbolic computation-graph expression.  A `conv` node records whether
the convolution is transposed, its output channels, kernel size, strides,
bias flag and scope name. -/
inductive NNExpr where
  | input : NNExpr
  | conv : Bool → Nat → Nat × Nat → Nat × Nat → Bool → String → NNExpr → NNExpr
  | applyFn : String → String → NNExpr → NNExpr
  | add : NNExpr → NNExpr → NNExpr
deriving DecidableEq, Repr

/-- Apply an optional normalizer/activation/dropout function: when present it
adds one node under its scope name, when absent it is the identity. -/
def maybeFn (present : Bool) (kind scopeName : String) (x : NNExpr) : NNExpr :=
  if present then NNExpr.applyFn kind scopeName x else x

/-- The residual path of `_resnet_block`
(src/tfsnippet/examples/nn/convolutional.py lines 70-82): norm1, nonlinear1,
conv1, dropout1, norm2, nonlinear2, conv2, where conv1 keeps the input
channels at strides (1, 1) and conv2 resizes when `resize_last` holds, and
conversely otherwise. -/
def residualPath (isDeconv ub : Bool) (inputs : NNExpr)
    (input_shape output_shape : Nat) (kernel_size strides : Nat × Nat)
    (resize_last hasAct hasNorm hasDrop : Bool) : NNExpr :=
  let conv1 := fun (x : NNExpr) (k : Nat × Nat) (name : String) =>
    if resize_last then NNExpr.conv isDeconv input_shape k (1, 1) ub name x
    else NNExpr.conv isDeconv output_shape k strides ub name x
  let conv2 := fun (x : NNExpr) (k : Nat × Nat) (name : String) =>
    if resize_last then NNExpr.conv isDeconv output_shape k strides ub name x
    else NNExpr.conv isDeconv output_shape k (1, 1) ub name x
  let r := inputs
  let r := maybeFn hasNorm "normalizer" "norm1" r
  let r := maybeFn hasAct "activation" "nonlinear1" r
  let r := conv1 r kernel_size "conv1"
  let r := maybeFn hasDrop "dropout" "dropout1" r
  let r := maybeFn hasNorm "normalizer" "norm2" r
  let r := maybeFn hasAct "activation" "nonlinear2" r
  conv2 r kernel_size "conv2"

/-- The `_resnet_block` builder
(src/tfsnippet/examples/nn/convolutional.py lines 32-85): when the strides
differ from (1, 1) the shortcut path is a convolution with
`shortcut_kernel_size` over the inputs, otherwise the unmodified inputs; the
result adds the shortcut and the residual path. -/
def resnetBlockCore (isDeconv ub : Bool) (inputs : NNExpr)
    (input_shape output_shape : Nat)
    (kernel_size strides shortcut_kernel_size : Nat × Nat)
    (resize_last hasAct hasNorm hasDrop : Bool) : NNExpr :=
  NNExpr.add
    (if strides ≠ (1, 1) then
      NNExpr.conv isDeconv output_shape shortcut_kernel_size strides ub
        "shortcut" inputs
    else inputs)
    (residualPath isDeconv ub inputs input_shape output_shape kernel_size
      strides resize_last hasAct hasNorm hasDrop)

/-- The `resnet_block` builder
(src/tfsnippet/examples/nn/convolutional.py lines 115-159): plain conv2d
convolutions, `resize_last = True`, and the convolutions use a bias exactly
when `use_bias` holds and no normalizer is supplied
(`use_bias and (normalizer_fn is None)`). -/
def resnet_block (inputs : NNExpr) (output_dims input_channels : Nat)
    (kernel_size strides shortcut_kernel_size : Nat × Nat)
    (hasAct hasNorm hasDrop use_bias : Bool) : NNExpr :=
  resnetBlockCore false (use_bias && !hasNorm) inputs input_channels
    output_dims kernel_size strides shortcut_kernel_size true
    hasAct hasNorm hasDrop

/-- The `deconv_resnet_block` builder
(src/tfsnippet/examples/nn/convolutional.py lines 164-208): transposed
convolutions, `resize_last = False`, with the same effective bias flag. -/
def deconv_resnet_block (inputs : NNExpr) (output_dims input_channels : Nat)
    (kernel_size strides shortcut_kernel_size : Nat × Nat)
    (hasAct hasNorm hasDrop use_bias : Bool) : NNExpr :=
  resnetBlockCore true (use_bias && !hasNorm) inputs input_channels
    output_dims kernel_size strides shortcut_kernel_size false
    hasAct hasNorm hasDrop

/-- The convolutions created by a graph expression: scope name, kernel size
and bias flag of every conv node, outermost first. -/
def NNExpr.convInfo : NNExpr → List (String × (Nat × Nat) × Bool)
  | .input => []
  | .conv _ _ ksize _ bias name arg => (name, ksize, bias) :: arg.convInfo
  | .applyFn _ _ arg => arg.convInfo
  | .add a b => a.convInfo ++ b.convInfo

theorem convInfo_maybeFn (p : Bool) (k n : String) (x : NNExpr) :
    (maybeFn p k n x).convInfo = x.convInfo := by
  cases p <;> simp [maybeFn, NNExpr.convInfo]

theorem convInfo_residualPath (isDeconv ub : Bool) (i o : Nat)
    (ks strides : Nat × Nat) (rl hA hN hD : Bool) :
    (residualPath isDeconv ub NNExpr.input i o ks strides rl hA hN hD).convInfo =
      [("conv2", ks, ub), ("conv1", ks, ub)] := by
  cases rl <;> simp [residualPath, convInfo_maybeFn, NNExpr.convInfo]

theorem convInfo_core (isDeconv ub : Bool) (i o : Nat)
    (ks strides sks : Nat × Nat) (rl hA hN hD : Bool) :
    (resnetBlockCore isDeconv ub NNExpr.input i o ks strides sks
      rl hA hN hD).convInfo =
    (if strides = (1, 1) then [] else [("shortcut", sks, ub)]) ++
      [("conv2", ks, ub), ("conv1", ks, ub)] := by
  by_cases hs : strides = (1, 1)
  · rw [resnetBlockCore, if_neg (fun h => h hs), if_pos hs]
    simp [NNExpr.convInfo, convInfo_residualPath]
  · rw [resnetBlockCore, if_pos hs, if_neg hs]
    simp [NNExpr.convInfo, convInfo_residualPath]

/-- Claim C10: in `resnet_block` and `deconv_resnet_block`, when the strides
equal (1, 1) the shortcut path is the unmodified input — the output is the
input plus the residual path, and no convolution named "shortcut" is created;
a shortcut convolution with `shortcut_kernel_size` is created exactly when
the strides differ from (1, 1); and every convolution created by either
builder uses a bias exactly when `use_bias` is requested and no
`normalizer_fn` is supplied. -/
theorem C10_resnet_shortcut_and_bias (output_dims input_channels : Nat)
    (kernel_size strides shortcut_kernel_size : Nat × Nat)
    (hasAct hasNorm hasDrop use_bias : Bool) :
    (strides = (1, 1) →
      resnet_block NNExpr.input output_dims input_channels kernel_size strides
          shortcut_kernel_size hasAct hasNorm hasDrop use_bias =
        NNExpr.add NNExpr.input
          (residualPath false (use_bias && !hasNorm) NNExpr.input
            input_channels output_dims kernel_size strides true
            hasAct hasNorm hasDrop) ∧
      deconv_resnet_block NNExpr.input output_dims input_channels kernel_size
          strides shortcut_kernel_size hasAct hasNorm hasDrop use_bias =
        NNExpr.add NNExpr.input
          (residualPath true (use_bias && !hasNorm) NNExpr.input
            input_channels output_dims kernel_size strides false
            hasAct hasNorm hasDrop) ∧
      (∀ p ∈ (resnet_block NNExpr.input output_dims input_channels kernel_size
          strides shortcut_kernel_size hasAct hasNorm hasDrop
          use_bias).convInfo, p.1 ≠ "shortcut")) ∧
    (strides ≠ (1, 1) →
      ("shortcut", shortcut_kernel_size, (use_bias && !hasNorm)) ∈
        (resnet_block NNExpr.input output_dims input_channels kernel_size
          strides shortcut_kernel_size hasAct hasNorm hasDrop
          use_bias).convInfo ∧
      ("shortcut", shortcut_kernel_size, (use_bias && !hasNorm)) ∈
        (deconv_resnet_block NNExpr.input output_dims input_channels
          kernel_size strides shortcut_kernel_size hasAct hasNorm hasDrop
          use_bias).convInfo) ∧
    (∀ p ∈ (resnet_block NNExpr.input output_dims input_channels kernel_size
        strides shortcut_kernel_size hasAct hasNorm hasDrop
        use_bias).convInfo, p.2.2 = (use_bias && !hasNorm)) ∧
    (∀ p ∈ (deconv_resnet_block NNExpr.input output_dims input_channels
        kernel_size strides shortcut_kernel_size hasAct hasNorm hasDrop
        use_bias).convInfo, p.2.2 = (use_bias && !hasNorm)) := by
  refine ⟨?_, ?_, ?_, ?_⟩
  · intro hs
    refine ⟨?_, ?_, ?_⟩
    · simp [resnet_block, resnetBlockCore, hs]
    · simp [deconv_resnet_block, resnetBlockCore, hs]
    · intro p hp
      rw [resnet_block, convInfo_core, if_pos hs] at hp
      simp at hp
      rcases hp with hp | hp <;> simp [hp]
  · intro hs
    constructor
    · rw [resnet_block, convInfo_core, if_neg hs]
      simp
    · rw [deconv_resnet_block, convInfo_core, if_neg hs]
      simp
  · intro p hp
    rw [resnet_block, convInfo_core] at hp
    by_cases hs : strides = (1, 1)
    · rw [if_pos hs] at hp
      simp at hp
      rcases hp with hp | hp <;> simp [hp]
    · rw [if_neg hs] at hp
      simp at hp
      rcases hp with hp | hp | hp <;> simp [hp]
  · intro p hp
    rw [deconv_resnet_block, convInfo_core] at hp
    by_cases hs : strides = (1, 1)
    · rw [if_pos hs] at hp
      simp at hp
      rcases hp with hp | hp <;> simp [hp]
    · rw [if_neg hs] at hp
      simp at hp
      rcases hp with hp | hp | hp <;> simp [hp]

/-- Witness for C10 at concrete arguments: with strides (1, 1), `use_bias`
requested and no normalizer, the block is the input plus the residual path
and its convolutions carry a bias; with strides (2, 2) the shortcut
convolution appears, carrying `shortcut_kernel_size` (1, 1). -/
theorem C10_resnet_shortcut_and_bias_witness :
    resnet_block NNExpr.input 8 4 (3, 3) (1, 1) (1, 1) false false false true =
      NNExpr.add NNExpr.input
        (residualPath false (true && !false) NNExpr.input 4 8 (3, 3) (1, 1)
          true false false false) ∧
    ("shortcut", (1, 1), (true && !false)) ∈
      (resnet_block NNExpr.input 8 4 (3, 3) (2, 2) (1, 1)
        false false false true).convInfo ∧
    ("conv1", (3, 3), (true && !false)) ∈
      (resnet_block NNExpr.input 8 4 (3, 3) (1, 1) (1, 1)
        false false false true).convInfo ∧
    (("conv1", (3, 3), (true && !false)) :
      String × (Nat × Nat) × Bool).2.2 = (true && !false) := by
  refine ⟨((C10_resnet_shortcut_and_bias 8 4 (3, 3) (1, 1) (1, 1)
      false false false true).1 rfl).1,
    ((C10_resnet_shortcut_and_bias 8 4 (3, 3) (2, 2) (1, 1)
      false false false true).2.1 (by decide)).1, by decide, ?_⟩
  exact (C10_resnet_shortcut_and_bias 8 4 (3, 3) (1, 1) (1, 1)
    false false false true).2.2.1 _ (by decide)

end TFSnippet
